import Mathlib

/-!
Verification of the sendgrid template resource handler
(`sendgrid/resource_template.go`): a shallow embedding of the lifecycle
callbacks (create, read, update, delete), the composite-id parser, and the
create-visibility poll, together with theorems settling the specification
claims about them.

The HTTP transport (`doRequest`) is treated as an oracle: every theorem
quantifies over, or fixes, the sequence of transport outcomes, which is
exactly how the claims are phrased ("for every possible result of the
underlying HTTP request ...").
-/

set_option linter.unusedVariables false

deriving instance DecidableEq for Except

namespace Sendgrid

/-- HTTP methods used by the resource handler. -/
inductive Method where
  | get
  | post
  | patch
  | delete
deriving DecidableEq

/-- Go error values as they flow through the handler: the rate-limit error
struct (`ratelimitError`, carrying a retry timeout), the wrapper produced by
`errors.Wrap` (whose dynamic type is the wrapping library's type, never the
wrapped one), and plain message errors (`fmt.Errorf`, json errors). -/
inductive GoErr where
  | ratelimit (timeout : Nat)
  | wrapped (m : String) (cause : GoErr)
  | msg (s : String)
deriving DecidableEq

/-- `errors.Wrap(err, m)` from pkg/errors: returns nil when `err` is nil,
otherwise a new wrapper value around `err`. -/
def errorsWrap (e : Option GoErr) (m : String) : Option GoErr :=
  match e with
  | none => none
  | some err => some (.wrapped m err)

/-- The Go type assertion `err.(ratelimitError)`: succeeds exactly when the
dynamic type of the error is the rate-limit struct itself — in particular it
fails on any `errors.Wrap` result, whatever it wraps. -/
def isRatelimit : GoErr → Option Nat
  | .ratelimit t => some t
  | _ => none

/-- The `versions` struct of the source (remote version state as returned by
the API). -/
structure versions where
  Active : Int
  Editor : String
  Id : String
  GeneratePlainContent : Bool
  HtmlContent : String
  Name : String
  PlainContent : String
  Subject : String
  TemplateId : String
  ThumbnailUrl : String
deriving DecidableEq

/-- The `template` struct of the source (remote template state as returned by
the API). -/
structure template where
  Name : String
  TemplateID : String
  Versions : List versions
deriving DecidableEq

/-- A response body, modelled in already-decoded form: JSON that decodes as a
template, JSON that decodes as a version, malformed data, or an empty body. -/
inductive Body where
  | templateJson (t : template)
  | versionJson (v : versions)
  | malformed (raw : String)
  | empty
deriving DecidableEq

/-- `json.Unmarshal` into the `template` struct. -/
def unmarshalTemplate : Body → Except GoErr template
  | .templateJson t => .ok t
  | _ => .error (.msg "invalid JSON")

/-- `json.Unmarshal` into the `versions` struct. -/
def unmarshalVersion : Body → Except GoErr versions
  | .versionJson v => .ok v
  | _ => .error (.msg "invalid JSON")

/-- An HTTP response as seen by the handler. -/
structure Response where
  StatusCode : Nat
  ResBody : Body
deriving DecidableEq

/-- One outcome of `doRequest`: either a response with nil error, or a non-nil
error possibly accompanied by a response (Go returns both values; on a failure
the response pointer may be nil). -/
inductive DoRequestOutcome where
  | success (res : Response)
  | failure (e : GoErr) (res : Option Response)
deriving DecidableEq

/-- Whether the outcome carries a response value (always true for a success;
for a failure, true exactly when the response pointer is non-nil). -/
def hasResponse : DoRequestOutcome → Bool
  | .failure _ none => false
  | _ => true

/-- Request payloads built by the handler: the `{name}` object sent on
template create/rename, and the version object sent on version create/update
(note: it never contains a version id). -/
inductive Payload where
  | namePayload (name : String)
  | versionPayload (name subject html_content plain_content : String)
      (active : Nat) (template_id : String)
deriving DecidableEq

/-- An HTTP request issued by the handler (method, path, body). -/
structure ApiRequest where
  method : Method
  path : String
  reqBody : Option Payload
deriving DecidableEq

/-- The Go conversion `uint(x)` applied to an `int`: reduction modulo 2^64. -/
def goUint (x : Int) : Nat :=
  (x % (2 : Int) ^ 64).toNat

/-- One element of the `versions` schema list as the handler reads it from the
resource data (`v["name"].(string)` etc.); `id` is present in the schema but
never read by the version calls. -/
structure versionConfig where
  name : String
  id : String
  subject : String
  html_content : String
  plain_content : String
  active : Int
deriving DecidableEq

/-- The caller-visible resource data (`*schema.ResourceData`): tracked
identity `id`, plus the `name` and `versions` attributes. -/
structure ResourceData where
  id : String
  name : String
  versionsAttr : List versionConfig
deriving DecidableEq

/-- `flattenVersions` from the source: remote version states flattened to the
schema map shape (keys active, html_content, id, plain_content, name,
subject). -/
def flattenVersions (versionsItems : List versions) : List versionConfig :=
  versionsItems.map fun v =>
    { name := v.Name
      id := v.Id
      subject := v.Subject
      html_content := v.HtmlContent
      plain_content := v.PlainContent
      active := v.Active }

/-- The `POST /v3/templates` request issued by `resourceTemplateCreate`. -/
def postTemplateRequest (name : String) : ApiRequest :=
  { method := .post, path := "/v3/templates", reqBody := some (.namePayload name) }

/-- The `GET /v3/templates/{id}` request issued by `getTemplate`. -/
def getTemplateRequest (id : String) : ApiRequest :=
  { method := .get, path := "/v3/templates/" ++ id, reqBody := none }

/-- The `DELETE /v3/templates/{id}` request issued by
`resourceTemplateDelete`. -/
def deleteTemplateRequest (id : String) : ApiRequest :=
  { method := .delete, path := "/v3/templates/" ++ id, reqBody := none }

/-- The `PATCH /v3/templates/{id}` rename request issued by
`updateTemplateName`. -/
def patchTemplateNameRequest (id name : String) : ApiRequest :=
  { method := .patch, path := "/v3/templates/" ++ id,
    reqBody := some (.namePayload name) }

/-- The request built by `setTemplateVersions`: `POST
/v3/templates/{id}/versions` with the version payload (name, subject,
html/plain content, `uint`-converted active flag, template id — no version
id). -/
def setTemplateVersionsRequest (templateId : String) (v : versionConfig) :
    ApiRequest :=
  { method := .post
    path := "/v3/templates/" ++ templateId ++ "/versions"
    reqBody := some (.versionPayload v.name v.subject v.html_content
      v.plain_content (goUint v.active) templateId) }

/-- The request built by `updateTemplateVersions`: `PATCH
/v3/templates/{id}/versions` with the same payload shape as
`setTemplateVersions`. -/
def updateTemplateVersionsRequest (templateId : String) (v : versionConfig) :
    ApiRequest :=
  { method := .patch
    path := "/v3/templates/" ++ templateId ++ "/versions"
    reqBody := some (.versionPayload v.name v.subject v.html_content
      v.plain_content (goUint v.active) templateId) }

/-- Result handling of `setTemplateVersions` on the transport outcome of its
POST: a transport error is wrapped and returned; otherwise the body is
unmarshalled as a version and its id returned. -/
def setTemplateVersionsResult (o : DoRequestOutcome) : Except GoErr String :=
  match o with
  | .failure e _ => .error (.wrapped "failed to create template versions" e)
  | .success res =>
      match unmarshalVersion res.ResBody with
      | .error e =>
          .error (.wrapped "failed to unmarshal created template ID" e)
      | .ok ver => .ok ver.Id

/-- Result handling of `updateTemplateVersions` on the transport outcome of
its PATCH; identical to `setTemplateVersionsResult` except for the wrap
message on transport errors. -/
def updateTemplateVersionsResult (o : DoRequestOutcome) : Except GoErr String :=
  match o with
  | .failure e _ => .error (.wrapped "failed to update template versions" e)
  | .success res =>
      match unmarshalVersion res.ResBody with
      | .error e =>
          .error (.wrapped "failed to unmarshal created template ID" e)
      | .ok ver => .ok ver.Id

/-- `getTemplate` from the source, as a function of the transport outcome of
its GET: a transport error is wrapped ("failed to query API template"); a 404
response yields `(nil, nil)`; otherwise the body is unmarshalled (wrap
"failed to unmarshal template query response" on failure). Returns the Go
pair `(*template, error)`. -/
def getTemplate (o : DoRequestOutcome) : Option template × Option GoErr :=
  match o with
  | .failure e _ =>
      (none, some (.wrapped "failed to query API template" e))
  | .success res =>
      if res.StatusCode = 404 then (none, none)
      else
        match unmarshalTemplate res.ResBody with
        | .error e =>
            (none, some (.wrapped "failed to unmarshal template query response" e))
        | .ok t => (some t, none)

/-- Modelled from the spec: the pending state literal of the create poll
("pending-state = waiting"); its definition (`statusWaiting`) is in a source
file outside src/. -/
def statusWaiting : String := "waiting"

/-- Modelled from the spec: the target state literal of the create poll
("target-state = done"); its definition (`statusDone`) is in a source file
outside src/. -/
def statusDone : String := "done"

/-- The `Refresh` closure of `resourceTemplateCreate`'s poll, as a function of
the transport outcome of the `getTemplate` it performs: if the returned error
passes the `err.(ratelimitError)` type assertion it sleeps and reports the
pending state with no error; any other non-nil error is returned; a nil
template with nil error reports the pending state; a template reports the
target state. -/
def refreshStep (o : DoRequestOutcome) :
    Option template × String × Option GoErr :=
  match getTemplate o with
  | (t?, some e) =>
      match isRatelimit e with
      | some _ => (none, statusWaiting, none)
      | none => (none, "", some e)
  | (none, none) => (none, statusWaiting, none)
  | (some t, none) => (some t, statusDone, none)

/-- `resourceTemplateDelete` from the source, as a function of the transport
outcome of its DELETE: on any error, or on a status other than 200, it
returns nil; otherwise it returns `errors.Wrap(err, ...)` with `err = nil`,
which is also nil. Returns the issued request and the Go error. -/
def resourceTemplateDelete (id : String) (o : DoRequestOutcome) :
    List ApiRequest × Option GoErr :=
  ([deleteTemplateRequest id],
    match o with
    | .failure _ _ => none
    | .success res =>
        if res.StatusCode ≠ 200 then none
        else errorsWrap none "failed to delete template")

/-- The post-request logic of `updateTemplateName` (`if err == nil ||
res.StatusCode != http.StatusOK`): `none` models the nil-pointer dereference
that occurs when the outcome is an error with a nil response (the second
disjunct evaluates `res.StatusCode`); every evaluation that completes returns
a nil Go error. -/
def updateTemplateNameStep (o : DoRequestOutcome) : Option (Option GoErr) :=
  match o with
  | .success _ => some none
  | .failure _ (some res) =>
      if res.StatusCode ≠ 200 then some none else some none
  | .failure _ none => none

/-- `resourceTemplateRead` from the source, as a function of the transport
outcome of its `getTemplate`: an error is returned as-is; a nil template
clears the tracked identity (`d.SetId("")`) and returns nil; otherwise the
name and flattened versions are stored and nil is returned. -/
def resourceTemplateRead (o : DoRequestOutcome) (d : ResourceData) :
    ResourceData × Option GoErr :=
  match getTemplate o with
  | (_, some e) => (d, some e)
  | (none, none) => ({ d with id := "" }, none)
  | (some t, none) =>
      ({ d with name := t.Name, versionsAttr := flattenVersions t.Versions },
        none)

/-- Splitting helper underlying Go's `strings.SplitN` for a single-character
separator: the characters before the first occurrence of `sep`, together with
the characters after it; `none` when `sep` does not occur. -/
def breakOn (sep : Char) : List Char → Option (List Char × List Char)
  | [] => none
  | c :: cs =>
      if c = sep then some ([], cs)
      else
        match breakOn sep cs with
        | none => none
        | some (a, b) => some (c :: a, b)

/-- Go's `strings.SplitN(s, sep, n)` for a single-character separator and
`n > 0`: at most `n` parts, the last part holding the unsplit remainder. -/
def splitN (sep : Char) : Nat → List Char → List (List Char)
  | 0, _ => []
  | 1, cs => [cs]
  | n + 2, cs =>
      match breakOn sep cs with
      | none => [cs]
      | some (a, b) => a :: splitN sep (n + 1) b

/-- The error message of `parseTemplate` for a malformed composite id. -/
def parseTemplateErr (id : String) : String :=
  "unexpected format of ID (" ++ id ++ "), expected id:name:versions"

/-- `parseTemplate` from the source: split the composite id on `:` into at
most three parts; error unless there are exactly three parts and the first
two are non-empty; otherwise return the first two parts. -/
def parseTemplate (id : String) : Except String (String × String) :=
  match splitN ':' 3 id.toList with
  | [p0, p1, p2] =>
      if p0 = [] ∨ p1 = [] then .error (parseTemplateErr id)
      else .ok (String.mk p0, String.mk p1)
  | _ => .error (parseTemplateErr id)

/-- Rendering of a Go error by `%s` / `Error()`: wrapped errors print as
"msg: cause". -/
def GoErr.render : GoErr → String
  | .ratelimit t => "rate limit exceeded, retry after " ++ toString t
  | .wrapped m cause => m ++ ": " ++ GoErr.render cause
  | .msg s => s

/-- Modelled from the spec: the timeout error produced by the host SDK's
poll helper when the deadline elapses before the target state is confirmed
(the SDK itself is not part of this repository). -/
def timeoutErr : GoErr := .msg "timeout while waiting for state to become done"

/-- Modelled from the spec: the host SDK's `StateChangeConf.WaitForState`
poll loop as configured by `resourceTemplateCreate` — an explicit state
machine that repeatedly calls the refresh function, fails on a refresh
error, counts consecutive observations of the target state `statusDone`,
succeeds once `required` consecutive observations are reached, resets the
count on a pending observation, and times out when the deadline (modelled as
`fuel`, the maximal number of refresh calls) elapses. Arguments after
`required`: fuel, next attempt index, current consecutive-target count.
Returns the number of refresh calls consumed and the error, if any
(`none` = success). -/
def waitForState (refresh : Nat → Option template × String × Option GoErr)
    (required : Nat) : Nat → Nat → Nat → Nat × Option GoErr
  | 0, attempt, _ => (attempt, some timeoutErr)
  | fuel + 1, attempt, streak =>
      match refresh attempt with
      | (_, _, some e) => (attempt + 1, some e)
      | (_, state, none) =>
          if state = statusDone then
            if required ≤ streak + 1 then (attempt + 1, none)
            else waitForState refresh required fuel (attempt + 1) (streak + 1)
          else waitForState refresh required fuel (attempt + 1) 0

/-- The wrapping `resourceTemplateCreate` applies to a poll failure:
`fmt.Errorf("error waiting for template (%s) to be created: %s", ...)`. -/
def createPollError (id : String) (e : GoErr) : GoErr :=
  .msg ("error waiting for template (" ++ id ++ ") to be created: " ++ e.render)

/-- The sequential per-version loop shared by `resourceTemplateCreate` and
`resourceTemplateUpdate`: issue `req v` for each version in list order,
feeding each call the next transport outcome (`oracle k`, `oracle (k+1)`,
...); the first error stops the loop. Returns the requests issued, the next
outcome index, and the error, if any. -/
def versionsLoop (req : versionConfig → ApiRequest)
    (result : DoRequestOutcome → Except GoErr String)
    (oracle : Nat → DoRequestOutcome) :
    List versionConfig → Nat → List ApiRequest × Nat × Option GoErr
  | [], k => ([], k, none)
  | v :: rest, k =>
      match result (oracle k) with
      | .error e => ([req v], k + 1, some e)
      | .ok _ =>
          match versionsLoop req result oracle rest (k + 1) with
          | (reqs, k_1, err?) => (req v :: reqs, k_1, err?)

/-- `resourceTemplateCreate` from the source, as a function of the sequence
of transport outcomes (`oracle 0` is the outcome of the template POST,
`oracle (1+j)` that of the j-th version POST, then one outcome per poll,
then one for the final read) and of the poll budget `fuel`: POST the
template, unmarshal its id and persist it to the resource identity, create
each version in order aborting on the first error, poll until the template
is visible (3 consecutive target observations), then perform a full read.
Returns the final resource data, the requests issued in order, and the
error, if any. -/
def resourceTemplateCreate (oracle : Nat → DoRequestOutcome) (fuel : Nat)
    (d : ResourceData) : ResourceData × List ApiRequest × Option GoErr :=
  let req0 := postTemplateRequest d.name
  match oracle 0 with
  | .failure e _ => (d, [req0], some (.wrapped "failed to create template" e))
  | .success res =>
      match unmarshalTemplate res.ResBody with
      | .error e =>
          (d, [req0], some (.wrapped "failed to unmarshal created template ID" e))
      | .ok t =>
          let d1 : ResourceData := { d with id := t.TemplateID }
          match versionsLoop (setTemplateVersionsRequest d1.id)
              setTemplateVersionsResult oracle d1.versionsAttr 1 with
          | (vreqs, k, some e) => (d1, req0 :: vreqs, some e)
          | (vreqs, k, none) =>
              match waitForState (fun m => refreshStep (oracle (k + m)))
                  3 fuel 0 0 with
              | (n, some e) =>
                  (d1,
                    req0 :: vreqs ++ List.replicate n (getTemplateRequest d1.id),
                    some (createPollError d1.id e))
              | (n, none) =>
                  match resourceTemplateRead (oracle (k + n)) d1 with
                  | (d2, rerr?) =>
                      (d2,
                        req0 :: vreqs
                          ++ List.replicate n (getTemplateRequest d1.id)
                          ++ [getTemplateRequest d1.id],
                        rerr?)

/-- `resourceTemplateUpdate` from the source, as a function of the change
flags (`d.HasChange("name")`, `d.HasChange("versions")`) and the sequence of
transport outcomes: when the name changed, run `updateTemplateName` (whose
result is discarded except for an early return on error — which it never
produces); when the versions changed, update every version in list order,
aborting on the first error; conclude with a full read. The outer `Option`
is `none` exactly when `updateTemplateName` hits its nil-response
dereference. -/
def resourceTemplateUpdate (oracle : Nat → DoRequestOutcome)
    (hasChangeName hasChangeVersions : Bool) (d : ResourceData) :
    Option (ResourceData × List ApiRequest × Option GoErr) :=
  let afterName : Option (List ApiRequest × Nat × Option GoErr) :=
    if hasChangeName then
      match updateTemplateNameStep (oracle 0) with
      | none => none
      | some err? => some ([patchTemplateNameRequest d.id d.name], 1, err?)
    else some ([], 0, none)
  match afterName with
  | none => none
  | some (reqs1, k1, some e) => some (d, reqs1, some e)
  | some (reqs1, k1, none) =>
      if hasChangeVersions then
        match versionsLoop (updateTemplateVersionsRequest d.id)
            updateTemplateVersionsResult oracle d.versionsAttr k1 with
        | (vreqs, k2, some e) => some (d, reqs1 ++ vreqs, some e)
        | (vreqs, k2, none) =>
            match resourceTemplateRead (oracle k2) d with
            | (d2, rerr?) =>
                some (d2, reqs1 ++ vreqs ++ [getTemplateRequest d.id], rerr?)
      else
        match resourceTemplateRead (oracle k1) d with
        | (d2, rerr?) => some (d2, reqs1 ++ [getTemplateRequest d.id], rerr?)

/-- Whether a request is a version-create call: a POST carrying a version
payload (the only POSTs with a version payload are those built by
`setTemplateVersionsRequest`). -/
def isVersionCreateCall (r : ApiRequest) : Bool :=
  match r.method, r.reqBody with
  | .post, some (.versionPayload _ _ _ _ _ _) => true
  | _, _ => false

/-- Whether an `Except` result is a success. -/
def isOkResult (r : Except GoErr String) : Bool :=
  match r with
  | .ok _ => true
  | .error _ => false

/-- Whether a request is the rename call (`PATCH /v3/templates/{id}` with a
name payload). -/
def isRenameCall (r : ApiRequest) : Bool :=
  match r.method, r.reqBody with
  | .patch, some (.namePayload _) => true
  | _, _ => false

/-- Whether a request is a version-update call (a PATCH carrying a version
payload). -/
def isVersionUpdateCall (r : ApiRequest) : Bool :=
  match r.method, r.reqBody with
  | .patch, some (.versionPayload _ _ _ _ _ _) => true
  | _, _ => false

/-- A concrete remote version state used in witnesses. -/
def exVersionState : versions :=
  { Active := 1, Editor := "code", Id := "v-1", GeneratePlainContent := false,
    HtmlContent := "<p>hi</p>", Name := "v1", PlainContent := "hi",
    Subject := "s", TemplateId := "tid0", ThumbnailUrl := "" }

/-- A concrete remote template used in witnesses. -/
def exTemplate : template :=
  { Name := "tpl", TemplateID := "tid0", Versions := [] }

/-- A concrete version schema entry used in witnesses. -/
def exVersionConfig : versionConfig :=
  { name := "v1", id := "", subject := "s", html_content := "<p>hi</p>",
    plain_content := "hi", active := 1 }

/-- Resource data before a create: empty identity, one desired version. -/
def dCreate : ResourceData :=
  { id := "", name := "tpl", versionsAttr := [exVersionConfig] }

/-- Resource data before a create with no desired versions. -/
def dCreateNoVersions : ResourceData :=
  { id := "", name := "tpl", versionsAttr := [] }

/-- Resource data of an already-tracked template. -/
def dTracked : ResourceData :=
  { id := "tid0", name := "tpl", versionsAttr := [exVersionConfig] }

/-- Transport oracle: the template create succeeds, the single version create
succeeds, every later read finds the template. -/
def createOkOracle : Nat → DoRequestOutcome := fun k =>
  if k = 0 then .success { StatusCode := 201, ResBody := .templateJson exTemplate }
  else if k = 1 then
    .success { StatusCode := 201, ResBody := .versionJson exVersionState }
  else .success { StatusCode := 200, ResBody := .templateJson exTemplate }

/-- Transport oracle: the template create succeeds, the first version create
fails with a transport error. -/
def createFailOracle : Nat → DoRequestOutcome := fun k =>
  if k = 0 then .success { StatusCode := 201, ResBody := .templateJson exTemplate }
  else .failure (.msg "boom") none

/-- Transport oracle of the amended poll example: the template is not found
on the first two reads and found afterwards. -/
def pollExampleOracle : Nat → DoRequestOutcome := fun m =>
  if m < 2 then .success { StatusCode := 404, ResBody := .empty }
  else .success { StatusCode := 200, ResBody := .templateJson exTemplate }

/-- Transport oracle of the original claim's poll example: the create
succeeds, the reads are rate-limited on the first two poll attempts and find
the template afterwards. -/
def pollRatelimitOracle : Nat → DoRequestOutcome := fun k =>
  if k = 0 then .success { StatusCode := 201, ResBody := .templateJson exTemplate }
  else if k ≤ 2 then .failure (.ratelimit 5) none
  else .success { StatusCode := 200, ResBody := .templateJson exTemplate }

/-- Transport oracle: the first outcome is a successful version update,
every later one a 200 read of the template. -/
def updateOkOracle : Nat → DoRequestOutcome := fun k =>
  if k = 0 then .success { StatusCode := 201, ResBody := .versionJson exVersionState }
  else .success { StatusCode := 200, ResBody := .templateJson exTemplate }

/-- Transport oracle whose every outcome is a 200 read of the template. -/
def readOkOracle : Nat → DoRequestOutcome := fun _ =>
  .success { StatusCode := 200, ResBody := .templateJson exTemplate }

/-- Transport oracle: the create succeeds but the template never becomes
visible (every later read is a 404). -/
def createNeverVisibleOracle : Nat → DoRequestOutcome := fun k =>
  if k = 0 then .success { StatusCode := 201, ResBody := .templateJson exTemplate }
  else .success { StatusCode := 404, ResBody := .empty }

/-! ## Helper lemmas -/

/-- When the transport outcome carries a response, `updateTemplateName`'s
post-request logic completes and returns a nil error. -/
theorem updateTemplateNameStep_total (o : DoRequestOutcome)
    (h : hasResponse o = true) : updateTemplateNameStep o = some none := by
  cases o with
  | success res => rfl
  | failure e res? =>
      cases res? with
      | none => simp [hasResponse] at h
      | some res =>
          simp only [updateTemplateNameStep]
          split <;> rfl

/-- `resourceTemplateDelete` returns a nil error on every transport
outcome. -/
theorem resourceTemplateDelete_err_none (id : String) (o : DoRequestOutcome) :
    (resourceTemplateDelete id o).2 = none := by
  cases o with
  | failure e res? => rfl
  | success res =>
      simp only [resourceTemplateDelete]
      split <;> rfl

/-- Every error returned by `getTemplate` is a wrapper produced by
`errors.Wrap`, hence never passes the `err.(ratelimitError)` type
assertion. -/
theorem getTemplate_err_not_ratelimit (o : DoRequestOutcome)
    (t? : Option template) (e : GoErr) (h : getTemplate o = (t?, some e)) :
    isRatelimit e = none := by
  cases o with
  | failure e0 res? =>
      simp only [getTemplate] at h
      obtain ⟨h1, h2⟩ := Prod.mk.injEq .. ▸ h
      cases h2
      rfl
  | success res =>
      simp only [getTemplate] at h
      by_cases h404 : res.StatusCode = 404
      · rw [if_pos h404] at h
        obtain ⟨h1, h2⟩ := Prod.mk.injEq .. ▸ h
        exact absurd h2.symm (by simp)
      · rw [if_neg h404] at h
        cases hu : unmarshalTemplate res.ResBody with
        | error e0 =>
            rw [hu] at h
            obtain ⟨h1, h2⟩ := Prod.mk.injEq .. ▸ h
            cases h2
            rfl
        | ok t =>
            rw [hu] at h
            obtain ⟨h1, h2⟩ := Prod.mk.injEq .. ▸ h
            exact absurd h2.symm (by simp)

/-! ## Claim theorems: error swallowing and read-absence -/

/-- Claim C1: for every possible result of the underlying HTTP request that
carries a response when it is an error (error, unexpected status, or
success), `resourceTemplateDelete` and `updateTemplateName` return no
error. -/
theorem delete_and_rename_swallow_transport_errors (id : String)
    (o : DoRequestOutcome) (h : hasResponse o = true) :
    (resourceTemplateDelete id o).2 = none ∧
    updateTemplateNameStep o = some none :=
  ⟨resourceTemplateDelete_err_none id o, updateTemplateNameStep_total o h⟩

/-- Witness for C1: a concrete failing transport outcome (with a 500
response attached) on which delete and rename both report success. -/
theorem delete_and_rename_swallow_transport_errors_witness :
    (resourceTemplateDelete "tid0"
        (.failure (.msg "boom") (some { StatusCode := 500, ResBody := .empty }))).2
      = none ∧
    updateTemplateNameStep
        (.failure (.msg "boom") (some { StatusCode := 500, ResBody := .empty }))
      = some none :=
  delete_and_rename_swallow_transport_errors "tid0"
    (.failure (.msg "boom") (some { StatusCode := 500, ResBody := .empty }))
    (by decide)

/-- Claim C2: on a 404 read outcome, `getTemplate` returns a nil template
with no error, and `resourceTemplateRead` clears the tracked identity and
returns success, for every resource data. -/
theorem read_on_404_clears_identity (res : Response)
    (h : res.StatusCode = 404) :
    getTemplate (.success res) = (none, none) ∧
    ∀ d : ResourceData,
      resourceTemplateRead (.success res) d = ({ d with id := "" }, none) := by
  constructor
  · simp [getTemplate, h]
  · intro d
    simp [resourceTemplateRead, getTemplate, h]

/-- Witness for C2: a concrete 404 response and resource data on which read
reports absence and clears the identity. -/
theorem read_on_404_clears_identity_witness :
    getTemplate (.success { StatusCode := 404, ResBody := .empty }) =
      (none, none) ∧
    resourceTemplateRead (.success { StatusCode := 404, ResBody := .empty })
        dTracked = ({ dTracked with id := "" }, none) := by
  have h := read_on_404_clears_identity { StatusCode := 404, ResBody := .empty }
    rfl
  exact ⟨h.1, h.2 dTracked⟩

/-- Claim C10: `updateTemplateName`'s post-request logic completes (does not
dereference a nil response) exactly when the transport outcome carries a
response; on an error outcome with a nil response the `res.StatusCode`
access is reached instead of any return branch. -/
theorem update_template_name_total_iff_response_present
    (o : DoRequestOutcome) :
    (updateTemplateNameStep o).isSome = hasResponse o := by
  cases o with
  | success res => rfl
  | failure e res? =>
      cases res? with
      | none => rfl
      | some res =>
          simp only [updateTemplateNameStep, hasResponse]
          split <;> rfl

/-- Witness for C10: the concrete nil-response error outcome on which the
status-code access crashes, and a response-carrying one on which it does
not. -/
theorem update_template_name_total_iff_response_present_witness :
    (updateTemplateNameStep (.failure (.msg "boom") none)).isSome =
      hasResponse (.failure (.msg "boom") none) ∧
    (updateTemplateNameStep
        (.failure (.msg "boom") (some { StatusCode := 500, ResBody := .empty }))).isSome =
      hasResponse (.failure (.msg "boom") (some { StatusCode := 500, ResBody := .empty })) :=
  ⟨update_template_name_total_iff_response_present (.failure (.msg "boom") none),
    update_template_name_total_iff_response_present
      (.failure (.msg "boom") (some { StatusCode := 500, ResBody := .empty }))⟩

/-- Claim C5 (code evaluated at the failing input): every error `getTemplate`
returns is wrapped by `errors.Wrap`, so the refresh step's
`err.(ratelimitError)` assertion never matches and its sleep-and-retry
branch is unreachable; concretely, a rate-limited read terminates the poll
with the wrapped error instead of reporting the pending state. The
not-found and generic-error behaviors claimed are confirmed alongside. -/
theorem refresh_ratelimit_branch_unreachable :
    (∀ (o : DoRequestOutcome) (t? : Option template) (e : GoErr),
      getTemplate o = (t?, some e) → isRatelimit e = none) ∧
    refreshStep (.failure (.ratelimit 5) none) =
      (none, "", some (.wrapped "failed to query API template" (.ratelimit 5))) ∧
    refreshStep (.success { StatusCode := 404, ResBody := .empty }) =
      (none, statusWaiting, none) ∧
    refreshStep (.failure (.msg "boom") none) =
      (none, "", some (.wrapped "failed to query API template" (.msg "boom"))) :=
  ⟨getTemplate_err_not_ratelimit, rfl, rfl, rfl⟩

/-- Witness for C5: the dead-branch fact applied to the concrete rate-limit
outcome. -/
theorem refresh_ratelimit_branch_unreachable_witness :
    isRatelimit (.wrapped "failed to query API template" (.ratelimit 7)) =
      none :=
  refresh_ratelimit_branch_unreachable.1 (.failure (.ratelimit 7) none) none
    (.wrapped "failed to query API template" (.ratelimit 7)) rfl

/-! ## Composite-id parser lemmas -/

/-- Soundness of `breakOn`: a successful break decomposes the list around the
first occurrence of the separator. -/
theorem breakOn_sound (sep : Char) :
    ∀ cs a b, breakOn sep cs = some (a, b) →
      cs = a ++ sep :: b ∧ sep ∉ a := by
  intro cs
  induction cs with
  | nil => intro a b h; simp [breakOn] at h
  | cons c cs ih =>
      intro a b h
      by_cases hc : c = sep
      · rw [breakOn, if_pos hc] at h
        injection h with h
        obtain ⟨h1, h2⟩ := Prod.mk.injEq .. ▸ h
        subst h1; subst h2; subst hc
        exact ⟨rfl, by simp⟩
      · rw [breakOn, if_neg hc] at h
        cases hb : breakOn sep cs with
        | none => rw [hb] at h; simp at h
        | some p =>
            obtain ⟨a0, b0⟩ := p
            rw [hb] at h
            injection h with h
            obtain ⟨h1, h2⟩ := Prod.mk.injEq .. ▸ h
            subst h2
            obtain ⟨hcs, hmem⟩ := ih a0 b0 hb
            subst hcs
            cases h1
            constructor
            · rfl
            · intro hmem2
              rcases List.mem_cons.mp hmem2 with h | h
              · exact hc h.symm
              · exact hmem h

/-- Completeness of `breakOn`: breaking a list shaped around a separator
occurrence, with no earlier occurrence, finds exactly that decomposition. -/
theorem breakOn_append (sep : Char) :
    ∀ a b, sep ∉ a → breakOn sep (a ++ sep :: b) = some (a, b) := by
  intro a
  induction a with
  | nil => intro b h; simp [breakOn]
  | cons c cs ih =>
      intro b h
      have hc : ¬ c = sep := by
        intro hh
        exact h (by simp [hh])
      have hcs : sep ∉ cs := fun hm => h (List.mem_cons_of_mem _ hm)
      rw [List.cons_append, breakOn, if_neg hc, ih b hcs]

/-- `splitN _ 3` on a list with no separator yields one part. -/
theorem splitN3_none (sep : Char) (cs : List Char)
    (h1 : breakOn sep cs = none) : splitN sep 3 cs = [cs] := by
  simp only [splitN, h1]

/-- `splitN _ 3` on a list with exactly one separator yields two parts. -/
theorem splitN3_two (sep : Char) (cs a b : List Char)
    (h1 : breakOn sep cs = some (a, b)) (h2 : breakOn sep b = none) :
    splitN sep 3 cs = [a, b] := by
  simp only [splitN, h1, h2]

/-- `splitN _ 3` on a list with at least two separators yields three parts,
the last holding the unsplit remainder. -/
theorem splitN3_three (sep : Char) (cs a b c d : List Char)
    (h1 : breakOn sep cs = some (a, b)) (h2 : breakOn sep b = some (c, d)) :
    splitN sep 3 cs = [a, c, d] := by
  simp only [splitN, h1, h2]

/-- The three possible shapes of `splitN sep 3`. -/
theorem splitN3_cases (sep : Char) (cs : List Char) :
    (breakOn sep cs = none ∧ splitN sep 3 cs = [cs]) ∨
    (∃ a b, breakOn sep cs = some (a, b) ∧ breakOn sep b = none ∧
      splitN sep 3 cs = [a, b]) ∨
    (∃ a b c d, breakOn sep cs = some (a, b) ∧ breakOn sep b = some (c, d) ∧
      splitN sep 3 cs = [a, c, d]) := by
  cases h1 : breakOn sep cs with
  | none => exact Or.inl ⟨rfl, splitN3_none sep cs h1⟩
  | some p =>
      obtain ⟨a, b⟩ := p
      cases h2 : breakOn sep b with
      | none =>
          exact Or.inr (Or.inl ⟨a, b, rfl, h2, splitN3_two sep cs a b h1 h2⟩)
      | some q =>
          obtain ⟨c, d⟩ := q
          exact Or.inr (Or.inr
            ⟨a, b, c, d, rfl, h2, splitN3_three sep cs a b c d h1 h2⟩)

/-- `parseTemplate` on an input whose split has one part. -/
theorem parseTemplate_eq_of_one (id : String) (p : List Char)
    (hs : splitN ':' 3 id.toList = [p]) :
    parseTemplate id = .error (parseTemplateErr id) := by
  rw [parseTemplate, hs]

/-- `parseTemplate` on an input whose split has two parts. -/
theorem parseTemplate_eq_of_two (id : String) (p q : List Char)
    (hs : splitN ':' 3 id.toList = [p, q]) :
    parseTemplate id = .error (parseTemplateErr id) := by
  rw [parseTemplate, hs]

/-- `parseTemplate` on an input whose split has three parts. -/
theorem parseTemplate_eq_of_three (id : String) (p q r : List Char)
    (hs : splitN ':' 3 id.toList = [p, q, r]) :
    parseTemplate id =
      if p = [] ∨ q = [] then .error (parseTemplateErr id)
      else .ok (String.mk p, String.mk q) := by
  rw [parseTemplate, hs]

/-- A string is empty exactly when its character list is. -/
theorem string_eq_empty_iff (s : String) : s = "" ↔ s.toList = [] := by
  constructor
  · intro h; rw [h]; rfl
  · intro h
    cases s with
    | mk data =>
        have hd : data = [] := h
        rw [hd]

/-- `parseTemplate` succeeds exactly on inputs of the shape
`id:name:rest` with non-empty, colon-free `id` and `name` parts, and
returns those two parts. -/
theorem parseTemplate_ok_iff (id : String) (a b : String) :
    parseTemplate id = .ok (a, b) ↔
      (a ≠ "" ∧ b ≠ "" ∧ ':' ∉ a.toList ∧ ':' ∉ b.toList ∧
        ∃ c, id.toList = a.toList ++ ':' :: (b.toList ++ ':' :: c)) := by
  constructor
  · intro h
    rcases splitN3_cases ':' id.toList with ⟨h1, hs⟩ | ⟨p, q, h1, h2, hs⟩ |
        ⟨p, q, r, s, h1, h2, hs⟩
    · rw [parseTemplate_eq_of_one id _ hs] at h; simp at h
    · rw [parseTemplate_eq_of_two id _ _ hs] at h; simp at h
    · rw [parseTemplate_eq_of_three id _ _ _ hs] at h
      by_cases hem : p = [] ∨ r = []
      · rw [if_pos hem] at h; simp at h
      · rw [if_neg hem] at h
        injection h with h
        obtain ⟨ha, hb⟩ := Prod.mk.injEq .. ▸ h
        obtain ⟨hq1, hq2⟩ := breakOn_sound ':' id.toList p q h1
        obtain ⟨hr1, hr2⟩ := breakOn_sound ':' q r s h2
        push_neg at hem
        have hat : a.toList = p := by rw [← ha]; rfl
        have hbt : b.toList = r := by rw [← hb]; rfl
        refine ⟨?_, ?_, ?_, ?_, s, ?_⟩
        · intro hEq
          apply hem.1
          rw [← hat]
          exact (string_eq_empty_iff a).mp hEq
        · intro hEq
          apply hem.2
          rw [← hbt]
          exact (string_eq_empty_iff b).mp hEq
        · rw [hat]; exact hq2
        · rw [hbt]; exact hr2
        · rw [hat, hbt, hq1, hr1]
  · rintro ⟨ha, hb, hna, hnb, c, hc⟩
    have h1 : breakOn ':' id.toList =
        some (a.toList, b.toList ++ ':' :: c) := by
      rw [hc]
      exact breakOn_append ':' a.toList (b.toList ++ ':' :: c) hna
    have h2 : breakOn ':' (b.toList ++ ':' :: c) = some (b.toList, c) :=
      breakOn_append ':' b.toList c hnb
    have hs : splitN ':' 3 id.toList = [a.toList, b.toList, c] :=
      splitN3_three ':' id.toList _ _ _ _ h1 h2
    rw [parseTemplate_eq_of_three id _ _ _ hs]
    have hem : ¬ (a.toList = [] ∨ b.toList = []) := by
      push_neg
      constructor
      · intro h; exact ha ((string_eq_empty_iff a).mpr h)
      · intro h; exact hb ((string_eq_empty_iff b).mpr h)
    rw [if_neg hem]
    have hma : String.mk a.toList = a := by cases a; rfl
    have hmb : String.mk b.toList = b := by cases b; rfl
    rw [hma, hmb]

/-- `parseTemplate` either succeeds or fails with the formatted message
naming the malformed id and the expected shape. -/
theorem parseTemplate_ok_or_err (id : String) :
    (∃ p, parseTemplate id = .ok p) ∨
      parseTemplate id = .error (parseTemplateErr id) := by
  rcases splitN3_cases ':' id.toList with ⟨h1, hs⟩ | ⟨p, q, h1, h2, hs⟩ |
      ⟨p, q, r, s, h1, h2, hs⟩
  · rw [parseTemplate_eq_of_one id _ hs]; exact Or.inr rfl
  · rw [parseTemplate_eq_of_two id _ _ hs]; exact Or.inr rfl
  · rw [parseTemplate_eq_of_three id _ _ _ hs]
    by_cases hem : p = [] ∨ r = []
    · rw [if_pos hem]; exact Or.inr rfl
    · rw [if_neg hem]; exact Or.inl ⟨(String.mk p, String.mk r), rfl⟩

/-! ## Claim theorem: identity parsing -/

/-- Claim C9: the composite-id parser splits its input on `:` into exactly
three parts and errors exactly when there are fewer than three parts or the
id or name part is empty, with the formatted message naming the malformed id
and the expected shape; in particular `"abc:tmpl1:v1"` parses to
`("abc", "tmpl1")` while `"abc"` and `"abc:"` produce the formatted
error. -/
theorem parse_template_characterization :
    parseTemplate "abc:tmpl1:v1" = .ok ("abc", "tmpl1") ∧
    parseTemplate "abc" = .error (parseTemplateErr "abc") ∧
    parseTemplate "abc:" = .error (parseTemplateErr "abc:") ∧
    (∀ id, parseTemplateErr id =
      "unexpected format of ID (" ++ id ++ "), expected id:name:versions") ∧
    (∀ id a b, parseTemplate id = .ok (a, b) ↔
      (a ≠ "" ∧ b ≠ "" ∧ ':' ∉ a.toList ∧ ':' ∉ b.toList ∧
        ∃ c, id.toList = a.toList ++ ':' :: (b.toList ++ ':' :: c))) ∧
    (∀ id, (∃ p, parseTemplate id = .ok p) ∨
      parseTemplate id = .error (parseTemplateErr id)) :=
  ⟨by decide, by decide, by decide, fun id => rfl, parseTemplate_ok_iff,
    parseTemplate_ok_or_err⟩

/-- Witness for C9: the success characterization applied to the concrete
input `"abc:tmpl1:v1"`. -/
theorem parse_template_characterization_witness :
    parseTemplate "abc:tmpl1:v1" = .ok ("abc", "tmpl1") :=
  (parse_template_characterization.2.2.2.2.1 "abc:tmpl1:v1" "abc"
      "tmpl1").mpr
    ⟨by decide, by decide, by decide, by decide, ['v', '1'], by decide⟩

/-! ## Poll-loop lemmas -/

/-- If the poll succeeds after `n` refresh calls (starting from attempt `a`
with a current streak of `s`), then at least `required - s` calls were made
and every one of the last `required` attempts before `n` (from attempt `a`
on) observed the target state. -/
theorem waitForState_ok
    (refresh : Nat → Option template × String × Option GoErr)
    (required : Nat) :
    ∀ fuel a s n, waitForState refresh required fuel a s = (n, none) →
      a < n ∧ required + a ≤ s + n ∧
        ∀ i, a ≤ i → i < n → n ≤ i + required →
          (refresh i).2.1 = statusDone := by
  intro fuel
  induction fuel with
  | zero =>
      intro a s n h
      rw [waitForState] at h
      obtain ⟨h1, h2⟩ := Prod.mk.injEq .. ▸ h
      simp at h2
  | succ fuel ih =>
      intro a s n h
      rw [waitForState] at h
      rcases hr : refresh a with ⟨t?, state, err?⟩
      cases err? with
      | some e =>
          simp only [hr] at h
          simp at h
      | none =>
          simp only [hr] at h
          by_cases hst : state = statusDone
          · rw [if_pos hst] at h
            by_cases hreq : required ≤ s + 1
            · rw [if_pos hreq] at h
              obtain ⟨h1, h2⟩ := Prod.mk.injEq .. ▸ h
              subst h1
              refine ⟨by omega, by omega, ?_⟩
              intro i hai hin hni
              have hia : i = a := by omega
              subst hia
              rw [hr]
              exact hst
            · rw [if_neg hreq] at h
              obtain ⟨ih1, ih2, ih3⟩ := ih (a + 1) (s + 1) n h
              refine ⟨by omega, by omega, ?_⟩
              intro i hai hin hni
              by_cases hia : i = a
              · subst hia
                rw [hr]
                exact hst
              · exact ih3 i (by omega) hin hni
          · rw [if_neg hst] at h
            obtain ⟨ih1, ih2, ih3⟩ := ih (a + 1) 0 n h
            refine ⟨by omega, by omega, ?_⟩
            intro i hai hin hni
            by_cases hia : i = a
            · exfalso; omega
            · exact ih3 i (by omega) hin hni

/-- If every refresh reports the pending state, the poll consumes its whole
budget and times out. -/
theorem waitForState_waiting
    (refresh : Nat → Option template × String × Option GoErr)
    (required : Nat)
    (hw : ∀ m, refresh m = (none, statusWaiting, none)) :
    ∀ fuel a s, waitForState refresh required fuel a s =
      (a + fuel, some timeoutErr) := by
  intro fuel
  induction fuel with
  | zero => intro a s; simp [waitForState]
  | succ fuel ih =>
      intro a s
      rw [waitForState]
      simp only [hw a]
      have hne : ¬ (statusWaiting = statusDone) := by decide
      rw [if_neg hne, ih (a + 1) 0]
      have heq : a + 1 + fuel = a + (fuel + 1) := by omega
      rw [heq]

/-- A read that finds nothing (and no error) makes the refresh step report
the pending state. -/
theorem refreshStep_waiting_of_notFound (o : DoRequestOutcome)
    (h : getTemplate o = (none, none)) :
    refreshStep o = (none, statusWaiting, none) := by
  rw [refreshStep, h]

/-! ## Claim theorems: the create-visibility poll -/

/-- Counterexample for C3 as stated: with the create succeeding and the
reads rate-limited on poll attempts 1–2 and finding the template on attempts
3–5, Create does not succeed after attempts 3,4,5 — it fails on the first
attempt, because the rate-limit error comes back wrapped and terminates the
poll. -/
theorem create_ratelimit_example_fails :
    (resourceTemplateCreate pollRatelimitOracle 10 dCreateNoVersions).2.2 =
      some (createPollError "tid0"
        (.wrapped "failed to query API template" (.ratelimit 5))) := rfl

/-- Claim C3 (amended: the illustrative attempts 1–2 are not-found reads
rather than rate-limited ones, which the code surfaces as poll failure):
the create poll declares success only after observing the target state on 3
consecutive attempts; with not-found reads on attempts 1–2 and successful
reads from attempt 3 on, it succeeds exactly after 5 attempts and has not
succeeded after 4; and when the target is never observed before the budget
elapses, Create fails with an error naming the resource id. -/
theorem create_poll_three_consecutive_done :
    (∀ (refresh : Nat → Option template × String × Option GoErr) fuel n,
      waitForState refresh 3 fuel 0 0 = (n, none) →
        3 ≤ n ∧ (refresh (n - 1)).2.1 = statusDone ∧
          (refresh (n - 2)).2.1 = statusDone ∧
          (refresh (n - 3)).2.1 = statusDone) ∧
    waitForState (fun m => refreshStep (pollExampleOracle m)) 3 10 0 0 =
      (5, none) ∧
    waitForState (fun m => refreshStep (pollExampleOracle m)) 3 4 0 0 =
      (4, some timeoutErr) ∧
    (∀ (oracle : Nat → DoRequestOutcome) (d : ResourceData) res0 t fuel,
      oracle 0 = .success res0 →
      unmarshalTemplate res0.ResBody = .ok t →
      d.versionsAttr = [] →
      (∀ m, getTemplate (oracle (1 + m)) = (none, none)) →
      (resourceTemplateCreate oracle fuel d).2.2 =
        some (createPollError t.TemplateID timeoutErr)) := by
  refine ⟨?_, by decide, by decide, ?_⟩
  · intro refresh fuel n h
    obtain ⟨h1, h2, h3⟩ := waitForState_ok refresh 3 fuel 0 0 n h
    refine ⟨by omega, ?_, ?_, ?_⟩
    · exact h3 (n - 1) (by omega) (by omega) (by omega)
    · exact h3 (n - 2) (by omega) (by omega) (by omega)
    · exact h3 (n - 3) (by omega) (by omega) (by omega)
  · intro oracle d res0 t fuel h0 hu hd hgt
    have hw : ∀ m, refreshStep (oracle (1 + m)) =
        (none, statusWaiting, none) :=
      fun m => refreshStep_waiting_of_notFound (oracle (1 + m)) (hgt m)
    simp only [resourceTemplateCreate, h0, hu, hd, versionsLoop]
    rw [waitForState_waiting (fun m => refreshStep (oracle (1 + m))) 3 hw
      fuel 0 0]

/-- Witness for C3: the general 3-consecutive-dones property applied to the
concrete example refresh sequence, and the timeout conclusion applied to a
concrete create whose reads never find the template. -/
theorem create_poll_three_consecutive_done_witness :
    (3 ≤ 5 ∧
      (refreshStep (pollExampleOracle 4)).2.1 = statusDone ∧
      (refreshStep (pollExampleOracle 3)).2.1 = statusDone ∧
      (refreshStep (pollExampleOracle 2)).2.1 = statusDone) ∧
    (resourceTemplateCreate createNeverVisibleOracle 7 dCreateNoVersions).2.2 =
      some (createPollError exTemplate.TemplateID timeoutErr) := by
  constructor
  · exact create_poll_three_consecutive_done.1
      (fun m => refreshStep (pollExampleOracle m)) 10 5 (by decide)
  · exact create_poll_three_consecutive_done.2.2.2
      createNeverVisibleOracle dCreateNoVersions
      { StatusCode := 201, ResBody := .templateJson exTemplate }
      exTemplate 7 rfl rfl rfl
      (fun m => by
        have h1 : ¬ (1 + m = 0) := by omega
        simp only [createNeverVisibleOracle, if_neg h1]
        rfl)

/-! ## Version-loop lemmas -/

/-- When every per-version call succeeds, the loop issues one request per
version, in list order, and returns no error. -/
theorem versionsLoop_ok (req : versionConfig → ApiRequest)
    (result : DoRequestOutcome → Except GoErr String)
    (oracle : Nat → DoRequestOutcome) :
    ∀ (vs : List versionConfig) (k : Nat),
      (∀ j, j < vs.length → isOkResult (result (oracle (k + j))) = true) →
      versionsLoop req result oracle vs k =
        (vs.map req, k + vs.length, none) := by
  intro vs
  induction vs with
  | nil => intro k hok; simp [versionsLoop]
  | cons v rest ih =>
      intro k hok
      have h0 : isOkResult (result (oracle k)) = true := by
        have := hok 0 (by simp)
        simpa using this
      rw [versionsLoop]
      cases hres : result (oracle k) with
      | error e => rw [hres] at h0; simp [isOkResult] at h0
      | ok x =>
          have hrec := ih (k + 1) (fun j hj => by
            have := hok (j + 1) (by simp; omega)
            have harith : k + (j + 1) = k + 1 + j := by omega
            rwa [harith] at this)
          simp only [hres, hrec]
          have harith : k + 1 + rest.length = k + (rest.length + 1) := by omega
          simp [harith]

/-- The first failing per-version call stops the loop: the requests issued
are those for the versions up to and including the failing one, and the
error is returned. -/
theorem versionsLoop_err (req : versionConfig → ApiRequest)
    (result : DoRequestOutcome → Except GoErr String)
    (oracle : Nat → DoRequestOutcome) :
    ∀ (vs : List versionConfig) (k j : Nat) (e : GoErr),
      j < vs.length →
      result (oracle (k + j)) = .error e →
      (∀ i, i < j → isOkResult (result (oracle (k + i))) = true) →
      versionsLoop req result oracle vs k =
        ((vs.take (j + 1)).map req, k + j + 1, some e) := by
  intro vs
  induction vs with
  | nil => intro k j e hj; simp at hj
  | cons v rest ih =>
      intro k j e hj herr hprev
      cases j with
      | zero =>
          have h0 : result (oracle k) = .error e := by
            have harith : k + 0 = k := by omega
            rwa [harith] at herr
          rw [versionsLoop, h0]
          simp
      | succ j =>
          have h0 : isOkResult (result (oracle k)) = true := by
            have := hprev 0 (by omega)
            simpa using this
          rw [versionsLoop]
          cases hres : result (oracle k) with
          | error e0 => rw [hres] at h0; simp [isOkResult] at h0
          | ok x =>
              have hrec := ih (k + 1) j e (by simpa using hj)
                (by
                  have harith : k + (j + 1) = k + 1 + j := by omega
                  rwa [harith] at herr)
                (fun i hi => by
                  have := hprev (i + 1) (by omega)
                  have harith : k + (i + 1) = k + 1 + i := by omega
                  rwa [harith] at this)
              simp only [hres, hrec]
              have harith : k + 1 + j + 1 = k + (j + 1) + 1 := by omega
              simp [harith]

/-- The requests issued by the loop are always the mapped requests of a
prefix of the version list. -/
theorem versionsLoop_take_shape (req : versionConfig → ApiRequest)
    (result : DoRequestOutcome → Except GoErr String)
    (oracle : Nat → DoRequestOutcome) :
    ∀ (vs : List versionConfig) (k : Nat),
      ∃ m, m ≤ vs.length ∧
        (versionsLoop req result oracle vs k).1 = (vs.take m).map req := by
  intro vs
  induction vs with
  | nil => intro k; exact ⟨0, by simp, by simp [versionsLoop]⟩
  | cons v rest ih =>
      intro k
      rw [versionsLoop]
      cases hres : result (oracle k) with
      | error e => exact ⟨1, by simp, by simp⟩
      | ok x =>
          obtain ⟨m, hm, hpref⟩ := ih (k + 1)
          refine ⟨m + 1, by simpa using hm, ?_⟩
          rcases hloop : versionsLoop req result oracle rest (k + 1) with
            ⟨reqs, k2, err?⟩
          rw [hloop] at hpref
          have hpref2 : reqs = List.map req (List.take m rest) := hpref
          simp only [hloop]
          show req v :: reqs = List.map req (List.take (m + 1) (v :: rest))
          rw [List.take_succ_cons, List.map_cons, hpref2]

/-- Filtering a mapped list whose images all satisfy the predicate keeps
everything. -/
theorem filter_map_of_true {α β : Type} (f : α → β) (p : β → Bool)
    (h : ∀ a, p (f a) = true) :
    ∀ l : List α, (l.map f).filter p = l.map f := by
  intro l
  induction l with
  | nil => rfl
  | cons a l ih => simp [List.filter_cons, h a, ih]

/-- Filtering a replicated element that fails the predicate yields nothing. -/
theorem filter_replicate_false {α : Type} (p : α → Bool) (a : α)
    (h : p a = false) :
    ∀ n, (List.replicate n a).filter p = [] := by
  intro n
  induction n with
  | zero => rfl
  | succ n ih => simp [List.replicate_succ, List.filter_cons, h, ih]

/-! ## Claim theorems: version creation during Create -/

/-- Claim C6: for every desired spec with N versions (N ≤ 300), Create
issues exactly N version-create calls, one per version in input order (the
version-create calls in its request trace are exactly the mapped list), and
the first version-create error aborts the operation: the error is returned
and no further calls are issued. -/
theorem create_issues_one_call_per_version :
    (∀ (oracle : Nat → DoRequestOutcome) (d : ResourceData) res0 t fuel n,
      oracle 0 = .success res0 →
      unmarshalTemplate res0.ResBody = .ok t →
      d.versionsAttr.length ≤ 300 →
      (∀ j, j < d.versionsAttr.length →
        isOkResult (setTemplateVersionsResult (oracle (1 + j))) = true) →
      waitForState (fun m => refreshStep
          (oracle (1 + d.versionsAttr.length + m))) 3 fuel 0 0 = (n, none) →
      (resourceTemplateCreate oracle fuel d).2.1 =
        postTemplateRequest d.name ::
          d.versionsAttr.map (setTemplateVersionsRequest t.TemplateID) ++
          List.replicate n (getTemplateRequest t.TemplateID) ++
          [getTemplateRequest t.TemplateID] ∧
      (resourceTemplateCreate oracle fuel d).2.1.filter isVersionCreateCall =
        d.versionsAttr.map (setTemplateVersionsRequest t.TemplateID)) ∧
    (∀ (oracle : Nat → DoRequestOutcome) (d : ResourceData) res0 t j e fuel,
      oracle 0 = .success res0 →
      unmarshalTemplate res0.ResBody = .ok t →
      d.versionsAttr.length ≤ 300 →
      j < d.versionsAttr.length →
      setTemplateVersionsResult (oracle (1 + j)) = .error e →
      (∀ i, i < j →
        isOkResult (setTemplateVersionsResult (oracle (1 + i))) = true) →
      resourceTemplateCreate oracle fuel d =
        ({ d with id := t.TemplateID },
          postTemplateRequest d.name ::
            (d.versionsAttr.take (j + 1)).map
              (setTemplateVersionsRequest t.TemplateID),
          some e)) := by
  constructor
  · intro oracle d res0 t fuel n h0 hu hlen hok hwfs
    have hloop := versionsLoop_ok (setTemplateVersionsRequest t.TemplateID)
      setTemplateVersionsResult oracle d.versionsAttr 1 hok
    have htrace : (resourceTemplateCreate oracle fuel d).2.1 =
        postTemplateRequest d.name ::
          d.versionsAttr.map (setTemplateVersionsRequest t.TemplateID) ++
          List.replicate n (getTemplateRequest t.TemplateID) ++
          [getTemplateRequest t.TemplateID] := by
      simp only [resourceTemplateCreate, h0, hu]
      simp only [hloop]
      simp only [hwfs]
    refine ⟨htrace, ?_⟩
    rw [htrace]
    have h1 : isVersionCreateCall (postTemplateRequest d.name) = false := rfl
    have h2 : isVersionCreateCall (getTemplateRequest t.TemplateID) = false :=
      rfl
    rw [List.filter_append, List.filter_append, List.filter_cons]
    rw [filter_map_of_true (setTemplateVersionsRequest t.TemplateID)
      isVersionCreateCall (fun v => rfl) d.versionsAttr]
    rw [filter_replicate_false isVersionCreateCall
      (getTemplateRequest t.TemplateID) h2 n]
    simp [h1, h2, List.filter_cons]
  · intro oracle d res0 t j e fuel h0 hu hlen hj herr hprev
    have hloop := versionsLoop_err (setTemplateVersionsRequest t.TemplateID)
      setTemplateVersionsResult oracle d.versionsAttr 1 j e hj herr hprev
    simp only [resourceTemplateCreate, h0, hu]
    simp only [hloop]

/-- Witness for C6: a create of one version whose call succeeds (exactly one
version POST, in order) and one whose call fails (abort with the wrapped
error after the failing call). -/
theorem create_issues_one_call_per_version_witness :
    ((resourceTemplateCreate createOkOracle 10 dCreate).2.1 =
      postTemplateRequest dCreate.name ::
        dCreate.versionsAttr.map
          (setTemplateVersionsRequest exTemplate.TemplateID) ++
        List.replicate 3 (getTemplateRequest exTemplate.TemplateID) ++
        [getTemplateRequest exTemplate.TemplateID] ∧
      (resourceTemplateCreate createOkOracle 10 dCreate).2.1.filter
          isVersionCreateCall =
        dCreate.versionsAttr.map
          (setTemplateVersionsRequest exTemplate.TemplateID)) ∧
    resourceTemplateCreate createFailOracle 10 dCreate =
      ({ dCreate with id := exTemplate.TemplateID },
        postTemplateRequest dCreate.name ::
          (dCreate.versionsAttr.take 1).map
            (setTemplateVersionsRequest exTemplate.TemplateID),
        some (.wrapped "failed to create template versions" (.msg "boom"))) := by
  constructor
  · exact create_issues_one_call_per_version.1 createOkOracle dCreate
      { StatusCode := 201, ResBody := .templateJson exTemplate } exTemplate
      10 3 rfl rfl (by decide)
      (fun j hj => by
        cases j with
        | zero => decide
        | succ jj => exact absurd hj (by simp [dCreate]))
      (by decide)
  · exact create_issues_one_call_per_version.2 createFailOracle dCreate
      { StatusCode := 201, ResBody := .templateJson exTemplate } exTemplate
      0 (.wrapped "failed to create template versions" (.msg "boom")) 10
      rfl rfl (by decide) (by decide) rfl
      (fun i hi => absurd hi (by omega))

/-! ## Update lemmas -/

/-- Counting a predicate over mapped images that all fail it yields zero. -/
theorem countP_map_zero {a b : Type} (f : a → b) (p : b → Bool)
    (h : ∀ x, p (f x) = false) :
    ∀ l : List a, (l.map f).countP p = 0 := by
  intro l
  induction l with
  | nil => rfl
  | cons x l ih => simp [List.countP_cons, h x, ih]

/-- An update with only the versions changed, whose per-version calls all
succeed, updates every version in order and concludes with a full read. -/
theorem update_only_versions_ok (oracle : Nat → DoRequestOutcome)
    (d : ResourceData)
    (hok : ∀ j, j < d.versionsAttr.length →
      isOkResult (updateTemplateVersionsResult (oracle j)) = true) :
    resourceTemplateUpdate oracle false true d =
      some ((resourceTemplateRead (oracle d.versionsAttr.length) d).1,
        d.versionsAttr.map (updateTemplateVersionsRequest d.id) ++
          [getTemplateRequest d.id],
        (resourceTemplateRead (oracle d.versionsAttr.length) d).2) := by
  have hloop := versionsLoop_ok (updateTemplateVersionsRequest d.id)
    updateTemplateVersionsResult oracle d.versionsAttr 0
    (fun j hj => by have := hok j hj; simpa using this)
  have hzero : (0 : Nat) + d.versionsAttr.length = d.versionsAttr.length := by
    omega
  rw [hzero] at hloop
  rcases hread : resourceTemplateRead (oracle d.versionsAttr.length) d with
    ⟨d2, rerr?⟩
  simp [resourceTemplateUpdate, hloop, hread]

/-- An update with only the name changed issues the rename (whose outcome is
swallowed) and concludes with a full read. -/
theorem update_only_name (oracle : Nat → DoRequestOutcome) (d : ResourceData)
    (h : hasResponse (oracle 0) = true) :
    resourceTemplateUpdate oracle true false d =
      some ((resourceTemplateRead (oracle 1) d).1,
        [patchTemplateNameRequest d.id d.name, getTemplateRequest d.id],
        (resourceTemplateRead (oracle 1) d).2) := by
  rcases hread : resourceTemplateRead (oracle 1) d with ⟨d2, rerr?⟩
  simp [resourceTemplateUpdate, updateTemplateNameStep_total (oracle 0) h,
    hread]

/-! ## Claim theorems: update dispatch -/

/-- Claim C7: Update dispatches on what changed — when only the versions
field changed it issues no rename call, when only the name field changed it
issues exactly one rename call and zero version calls, and in each case it
concludes with a full read of the remote state (the trace ends in the read
request and the returned state and error are the read's). -/
theorem update_dispatch_on_changed_fields :
    (∀ (oracle : Nat → DoRequestOutcome) (d : ResourceData),
      (∀ j, j < d.versionsAttr.length →
        isOkResult (updateTemplateVersionsResult (oracle j)) = true) →
      resourceTemplateUpdate oracle false true d =
        some ((resourceTemplateRead (oracle d.versionsAttr.length) d).1,
          d.versionsAttr.map (updateTemplateVersionsRequest d.id) ++
            [getTemplateRequest d.id],
          (resourceTemplateRead (oracle d.versionsAttr.length) d).2) ∧
      (d.versionsAttr.map (updateTemplateVersionsRequest d.id) ++
        [getTemplateRequest d.id]).countP isRenameCall = 0) ∧
    (∀ (oracle : Nat → DoRequestOutcome) (d : ResourceData),
      hasResponse (oracle 0) = true →
      resourceTemplateUpdate oracle true false d =
        some ((resourceTemplateRead (oracle 1) d).1,
          [patchTemplateNameRequest d.id d.name, getTemplateRequest d.id],
          (resourceTemplateRead (oracle 1) d).2) ∧
      ([patchTemplateNameRequest d.id d.name,
        getTemplateRequest d.id]).countP isRenameCall = 1 ∧
      ([patchTemplateNameRequest d.id d.name,
        getTemplateRequest d.id]).countP isVersionUpdateCall = 0) := by
  constructor
  · intro oracle d hok
    refine ⟨update_only_versions_ok oracle d hok, ?_⟩
    rw [List.countP_append]
    rw [countP_map_zero (updateTemplateVersionsRequest d.id) isRenameCall
      (fun v => rfl) d.versionsAttr]
    rfl
  · intro oracle d h
    exact ⟨update_only_name oracle d h, rfl, rfl⟩

/-- Witness for C7: both dispatch cases at concrete oracles and resource
data. -/
theorem update_dispatch_on_changed_fields_witness :
    (resourceTemplateUpdate updateOkOracle false true dTracked =
      some ((resourceTemplateRead
          (updateOkOracle dTracked.versionsAttr.length) dTracked).1,
        dTracked.versionsAttr.map
          (updateTemplateVersionsRequest dTracked.id) ++
          [getTemplateRequest dTracked.id],
        (resourceTemplateRead
          (updateOkOracle dTracked.versionsAttr.length) dTracked).2) ∧
      (dTracked.versionsAttr.map
        (updateTemplateVersionsRequest dTracked.id) ++
        [getTemplateRequest dTracked.id]).countP isRenameCall = 0) ∧
    (resourceTemplateUpdate readOkOracle true false dTracked =
      some ((resourceTemplateRead (readOkOracle 1) dTracked).1,
        [patchTemplateNameRequest dTracked.id dTracked.name,
          getTemplateRequest dTracked.id],
        (resourceTemplateRead (readOkOracle 1) dTracked).2) ∧
      ([patchTemplateNameRequest dTracked.id dTracked.name,
        getTemplateRequest dTracked.id]).countP isRenameCall = 1 ∧
      ([patchTemplateNameRequest dTracked.id dTracked.name,
        getTemplateRequest dTracked.id]).countP isVersionUpdateCall = 0) := by
  constructor
  · exact update_dispatch_on_changed_fields.1 updateOkOracle dTracked
      (fun j hj => by
        cases j with
        | zero => decide
        | succ jj => exact absurd hj (by simp [dTracked]))
  · exact update_dispatch_on_changed_fields.2 readOkOracle dTracked
      (by decide)

/-! ## Claim theorems: the shape of version-update calls -/

/-- Counterexample for C4 as stated: the version-upsert call issued by
Update is not a create-style POST — at a concrete template id and version
its method is PATCH, not POST. -/
theorem update_version_call_is_patch_not_post :
    (updateTemplateVersionsRequest "tid0" exVersionConfig).method =
      .patch ∧
    ¬ ((updateTemplateVersionsRequest "tid0" exVersionConfig).method =
      .post) := by
  exact ⟨rfl, by decide⟩

/-- Claim C4 (amended: the call is an HTTP PATCH, not a POST): when the
versions field changed, Update issues for every version in the new spec
(not only changed ones) a version-upsert call with the same path and the
same body as Create's version call — differing only in using PATCH where
Create uses POST — and the call does not distinguish a new version from an
edit of an existing version by the presence of a version id: the request is
independent of the version's id field. -/
theorem update_version_calls_match_create_shape :
    (∀ tid v,
      (updateTemplateVersionsRequest tid v).path =
        (setTemplateVersionsRequest tid v).path ∧
      (updateTemplateVersionsRequest tid v).reqBody =
        (setTemplateVersionsRequest tid v).reqBody ∧
      (updateTemplateVersionsRequest tid v).method = .patch ∧
      (setTemplateVersionsRequest tid v).method = .post) ∧
    (∀ tid v newId,
      updateTemplateVersionsRequest tid { v with id := newId } =
        updateTemplateVersionsRequest tid v) ∧
    (∀ (oracle : Nat → DoRequestOutcome) (d : ResourceData),
      (∀ j, j < d.versionsAttr.length →
        isOkResult (updateTemplateVersionsResult (oracle j)) = true) →
      ∃ x, resourceTemplateUpdate oracle false true d = some x ∧
        x.2.1 = d.versionsAttr.map (updateTemplateVersionsRequest d.id) ++
          [getTemplateRequest d.id]) := by
  refine ⟨fun tid v => ⟨rfl, rfl, rfl, rfl⟩, fun tid v newId => rfl, ?_⟩
  intro oracle d hok
  exact ⟨_, update_only_versions_ok oracle d hok, rfl⟩

/-- Witness for C4: shape identity, id-independence and the per-version
PATCH trace at concrete inputs. -/
theorem update_version_calls_match_create_shape_witness :
    (updateTemplateVersionsRequest "tid0" exVersionConfig).reqBody =
      (setTemplateVersionsRequest "tid0" exVersionConfig).reqBody ∧
    updateTemplateVersionsRequest "tid0" { exVersionConfig with id := "zzz" } =
      updateTemplateVersionsRequest "tid0" exVersionConfig ∧
    ∃ x, resourceTemplateUpdate updateOkOracle false true dTracked = some x ∧
      x.2.1 = dTracked.versionsAttr.map
          (updateTemplateVersionsRequest dTracked.id) ++
        [getTemplateRequest dTracked.id] :=
  ⟨(update_version_calls_match_create_shape.1 "tid0" exVersionConfig).2.1,
    update_version_calls_match_create_shape.2.1 "tid0" exVersionConfig "zzz",
    update_version_calls_match_create_shape.2.2 updateOkOracle dTracked
      (fun j hj => by
        cases j with
        | zero => decide
        | succ jj => exact absurd hj (by simp [dTracked]))⟩

/-! ## Claim theorems: identity persistence in Create -/

/-- Claim C8: in Create, the new template's id is persisted to the
caller-visible resource identity right after the create response is parsed
and before any version call: every version-create request in Create's trace
targets the persisted id (so none is issued while the identity is unset),
and a failure while processing versions still returns resource data whose
identity is the parsed id, together with that failure. -/
theorem create_persists_id_before_version_calls :
    (∀ (oracle : Nat → DoRequestOutcome) (d : ResourceData) res0 t fuel,
      oracle 0 = .success res0 →
      unmarshalTemplate res0.ResBody = .ok t →
      ∀ r, r ∈ (resourceTemplateCreate oracle fuel d).2.1 →
        isVersionCreateCall r = true →
        ∃ v, v ∈ d.versionsAttr ∧
          r = setTemplateVersionsRequest t.TemplateID v) ∧
    (∀ (oracle : Nat → DoRequestOutcome) (d : ResourceData) res0 t fuel
        vreqs k e,
      oracle 0 = .success res0 →
      unmarshalTemplate res0.ResBody = .ok t →
      versionsLoop (setTemplateVersionsRequest t.TemplateID)
          setTemplateVersionsResult oracle d.versionsAttr 1 =
        (vreqs, k, some e) →
      (resourceTemplateCreate oracle fuel d).1 =
        { d with id := t.TemplateID } ∧
      (resourceTemplateCreate oracle fuel d).2.2 = some e) := by
  constructor
  · intro oracle d res0 t fuel h0 hu r hr hv
    obtain ⟨m, hm, hpref⟩ := versionsLoop_take_shape
      (setTemplateVersionsRequest t.TemplateID) setTemplateVersionsResult
      oracle d.versionsAttr 1
    rcases hloop : versionsLoop (setTemplateVersionsRequest t.TemplateID)
        setTemplateVersionsResult oracle d.versionsAttr 1 with ⟨vreqs, k, err?⟩
    rw [hloop] at hpref
    have hpref2 : vreqs =
        (d.versionsAttr.take m).map (setTemplateVersionsRequest t.TemplateID) :=
      hpref
    simp only [resourceTemplateCreate, h0, hu] at hr
    simp only [hloop] at hr
    have hpost : isVersionCreateCall (postTemplateRequest d.name) = false := rfl
    have hget : isVersionCreateCall (getTemplateRequest t.TemplateID) = false :=
      rfl
    have hvreqs : r ∈ vreqs →
        ∃ v, v ∈ d.versionsAttr ∧
          r = setTemplateVersionsRequest t.TemplateID v := by
      intro hmem
      rw [hpref2] at hmem
      obtain ⟨v, hvmem, hveq⟩ := List.mem_map.mp hmem
      exact ⟨v, List.take_subset m d.versionsAttr hvmem, hveq.symm⟩
    cases err? with
    | some e =>
        rcases List.mem_cons.mp hr with hre | hre
        · rw [hre, hpost] at hv
          exact absurd hv (by decide)
        · exact hvreqs hre
    | none =>
        rcases hw : waitForState (fun m => refreshStep (oracle (k + m)))
            3 fuel 0 0 with ⟨n, werr?⟩
        cases werr? with
        | some e =>
            simp only [hw] at hr
            rcases List.mem_append.mp hr with hre | hre
            · rcases List.mem_cons.mp hre with hre2 | hre2
              · rw [hre2, hpost] at hv
                exact absurd hv (by decide)
              · exact hvreqs hre2
            · rw [List.eq_of_mem_replicate hre, hget] at hv
              exact absurd hv (by decide)
        | none =>
            simp only [hw] at hr
            rcases List.mem_append.mp hr with hre | hre
            · rcases List.mem_append.mp hre with hre2 | hre2
              · rcases List.mem_cons.mp hre2 with hre3 | hre3
                · rw [hre3, hpost] at hv
                  exact absurd hv (by decide)
                · exact hvreqs hre3
              · rw [List.eq_of_mem_replicate hre2, hget] at hv
                exact absurd hv (by decide)
            · rcases List.mem_cons.mp hre with hre2 | hre2
              · rw [hre2, hget] at hv
                exact absurd hv (by decide)
              · exact absurd hre2 (List.not_mem_nil r)
  · intro oracle d res0 t fuel vreqs k e h0 hu hloop
    refine ⟨?_, ?_⟩ <;> simp [resourceTemplateCreate, h0, hu, hloop]

/-- Witness for C8: at the concrete create whose single version call fails,
the version request targets the persisted id and the returned resource data
still carries that id together with the failure. -/
theorem create_persists_id_before_version_calls_witness :
    (∃ v, v ∈ dCreate.versionsAttr ∧
      setTemplateVersionsRequest exTemplate.TemplateID exVersionConfig =
        setTemplateVersionsRequest exTemplate.TemplateID v) ∧
    (resourceTemplateCreate createFailOracle 10 dCreate).1 =
      { dCreate with id := exTemplate.TemplateID } ∧
    (resourceTemplateCreate createFailOracle 10 dCreate).2.2 =
      some (.wrapped "failed to create template versions" (.msg "boom")) := by
  refine ⟨?_, ?_⟩
  · exact create_persists_id_before_version_calls.1 createFailOracle dCreate
      { StatusCode := 201, ResBody := .templateJson exTemplate } exTemplate 10
      rfl rfl
      (setTemplateVersionsRequest exTemplate.TemplateID exVersionConfig)
      (by decide) rfl
  · exact create_persists_id_before_version_calls.2 createFailOracle dCreate
      { StatusCode := 201, ResBody := .templateJson exTemplate } exTemplate 10
      [setTemplateVersionsRequest exTemplate.TemplateID exVersionConfig] 2
      (.wrapped "failed to create template versions" (.msg "boom"))
      rfl rfl (by decide)

end Sendgrid
